import Mathlib

/-!
Shallow embedding of the image-composition and device-synchronization core of
the `smalltv_ultra` Home Assistant custom component (repository
`kizs/smalltv-cameras`).

The embedding covers:
* `custom_components/smalltv_ultra/image_processor.py` — font loading,
  frame normalization (center-crop, resize, label overlay) and animated-GIF
  composition (`_load_font`, `_process_frame`, `create_camera_gif`);
* `custom_components/smalltv_ultra/api.py` — the `upload_image` success /
  failure classification, including the duplicate `Content-Length`
  transport-error reinterpretation;
* `custom_components/smalltv_ultra/coordinator.py` — the
  `_async_update_data` update cycle and the `_needs_album_init` flag,
  plus `async_force_refresh`.

Modelling conventions: raw image bytes are `List Nat`; the external PIL
decoder, the filesystem visible to font loading, camera fetches and the
HTTP transport outcomes are inputs (function-valued fields of `CycleEnv` or
explicit parameters), since they are collaborators outside this repository.
Pixel-level resampling (`Image.LANCZOS`) and palette contents are kept
symbolic: an `Img` carries its exact integer dimensions and a constructor
tree recording which geometric/encoding operation produced it with the
exact numeric parameters the Python code computes.  Python exceptions are
`Except` / `Option` values.
-/

namespace SmallTV

/-- Raw image bytes (contents of a camera snapshot). -/
abbrev ByteSeq := List Nat

/-- Result of `ImageFont.truetype(path, size)` or of `ImageFont.load_default()`
in `image_processor._load_font`. -/
inductive Font where
  | truetype (path : String) (size : Nat)
  | bitmapDefault
deriving DecidableEq

/-- Symbolic record of the operation that produced an image, with the exact
numeric parameters computed by `image_processor.py`.  `source` stands for an
arbitrary decoded input image. -/
inductive ImgContent where
  | source (id : Nat)
  | cropped (c : ImgContent) (left top right bottom : Nat)
  | resized (c : ImgContent) (w h : Nat)
  | labeled (c : ImgContent) (text : String) (font : Font)
  | quantized (c : ImgContent) (colors : Nat)
deriving DecidableEq

/-- A PIL image: exact integer dimensions plus the symbolic content tree. -/
structure Img where
  width : Nat
  height : Nat
  content : ImgContent
deriving DecidableEq

/-- Constant `_FONT_SIZE = 20` from `image_processor.py`. -/
def _FONT_SIZE : Nat := 20

/-- Constant `_LABEL_BAR_HEIGHT = 30` from `image_processor.py`. -/
def _LABEL_BAR_HEIGHT : Nat := 30

/-- Constant `_DISPLAY_SIZE = 240` from `image_processor.py`. -/
def _DISPLAY_SIZE : Nat := 240

/-- Constant `_FONT_CANDIDATES` from `image_processor.py`. -/
def _FONT_CANDIDATES : List String :=
  [ "/usr/share/fonts/truetype/dejavu/DejaVuSans-Bold.ttf",
    "/usr/share/fonts/dejavu/DejaVuSans-Bold.ttf",
    "/usr/share/fonts/TTF/DejaVuSans-Bold.ttf",
    "/config/custom_components/smalltv_ultra/DejaVuSans-Bold.ttf" ]

/-- Candidate list built by `_load_font`:
`([font_path] if font_path else []) + _FONT_CANDIDATES` (a `None` or empty
`font_path` contributes nothing, by Python truthiness). -/
def fontCandidates (font_path : Option String) : List String :=
  (match font_path with
   | none => []
   | some p => if p = "" then [] else [p]) ++ _FONT_CANDIDATES

/-- Loop body of `_load_font`: try each candidate path in order (`fs p` tells
whether `ImageFont.truetype p` succeeds on the ambient filesystem), fall back
to `ImageFont.load_default()` when none loads. -/
def loadFontGo (fs : String → Bool) : List String → Font
  | [] => Font.bitmapDefault
  | p :: rest => if fs p then Font.truetype p _FONT_SIZE else loadFontGo fs rest

/-- Model of `image_processor._load_font(font_path)`, parameterized by the
filesystem `fs`. -/
def _load_font (fs : String → Bool) (font_path : Option String) : Font :=
  loadFontGo fs (fontCandidates font_path)

/-- Model of `img.crop((left, top, right, bottom))` (PIL box semantics:
resulting size is `(right - left) × (bottom - top)`). -/
def crop (img : Img) (left top right bottom : Nat) : Img :=
  { width := right - left, height := bottom - top,
    content := ImgContent.cropped img.content left top right bottom }

/-- Model of `img.resize((w, h), Image.LANCZOS)`: exact output dimensions,
symbolic pixel content. -/
def resize (img : Img) (w h : Nat) : Img :=
  { width := w, height := h, content := ImgContent.resized img.content w h }

/-- Model of the label-bar overlay section of `_process_frame` (rectangle of
height `_LABEL_BAR_HEIGHT`, alpha-160 black fill, centered white text): it
never changes the image dimensions and records the exact rendered text. -/
def labelOverlay (img : Img) (text : String) (font : Font) : Img :=
  { width := img.width, height := img.height,
    content := ImgContent.labeled img.content text font }

/-- Model of `f.quantize(colors=256, method=Image.Quantize.MEDIANCUT)`:
dimensions preserved, palette size bound recorded. -/
def quantize (img : Img) (colors : Nat) : Img :=
  { width := img.width, height := img.height,
    content := ImgContent.quantized img.content colors }

/-- Body of `image_processor._process_frame` after the `Image.open` decode
succeeded: center-crop to the largest inscribed square (floor-division
offsets), resize to `_DISPLAY_SIZE × _DISPLAY_SIZE`, then draw the label
truncated to its first 22 characters (`label[:22]`). -/
def processDecodedFrame (img : Img) (label : String) (font : Font) : Img :=
  let w := img.width
  let h := img.height
  let side := min w h
  let left := (w - side) / 2
  let top := (h - side) / 2
  let squared := crop img left top (left + side) (top + side)
  let resizedImg := resize squared _DISPLAY_SIZE _DISPLAY_SIZE
  labelOverlay resizedImg (label.take 22) font

/-- Model of `image_processor._process_frame(raw_bytes, label, font)`:
`Image.open(io.BytesIO(raw_bytes)).convert("RGB")` is the external decoder
`decode`; a decode failure (PIL raising) is `none`. -/
def _process_frame (decode : ByteSeq → Option Img) (raw : ByteSeq)
    (label : String) (font : Font) : Option Img :=
  (decode raw).map (fun img => processDecodedFrame img label font)

/-- Exceptions escaping `create_camera_gif`: a PIL decode error raised inside
the per-frame loop, or the explicit `ValueError("No frames to encode")`
(the spec's `EmptyInputError`). -/
inductive ProcError where
  | decodeError
  | emptyInput
deriving DecidableEq

/-- The encoded animation as written by `quantized[0].save(..., save_all=True,
append_images=quantized[1:], duration=frame_duration_s * 1000, loop=0)`:
ordered frames, per-frame duration in milliseconds, loop count (0 = forever). -/
structure GifArtifact where
  frames : List Img
  durationMs : Nat
  loop : Nat
deriving DecidableEq

/-- The `for raw_bytes, label in frames: pil_frames.append(_process_frame ...)`
loop of `create_camera_gif`: processes frames in input order, propagating the
first decode failure. -/
def processAllFrames (decode : ByteSeq → Option Img) (font : Font) :
    List (ByteSeq × String) → Except ProcError (List Img)
  | [] => Except.ok []
  | (raw, label) :: rest =>
    match _process_frame decode raw label font with
    | none => Except.error ProcError.decodeError
    | some img => (processAllFrames decode font rest).map (fun tl => img :: tl)

/-- Model of `image_processor.create_camera_gif(frames, frame_duration_s,
font_path)`: load the font once, normalize every frame in input order, fail
with `ValueError` on an empty frame list, quantize each frame independently
to a 256-color palette, and encode with `duration = frame_duration_s * 1000`
milliseconds per frame and `loop = 0` (infinite). -/
def create_camera_gif (decode : ByteSeq → Option Img) (fs : String → Bool)
    (font_path : Option String) (frames : List (ByteSeq × String))
    (frame_duration_s : Nat) : Except ProcError GifArtifact :=
  let font := _load_font fs font_path
  match processAllFrames decode font frames with
  | Except.error e => Except.error e
  | Except.ok pil_frames =>
    if pil_frames.isEmpty then Except.error ProcError.emptyInput
    else
      Except.ok
        { frames := pil_frames.map (fun f => quantize f 256),
          durationMs := frame_duration_s * 1000,
          loop := 0 }

/-- Rendered label text of an image whose outermost operation was the label
overlay of `_process_frame`. -/
def labelTextOf (img : Img) : Option String :=
  match img.content with
  | ImgContent.labeled _ text _ => some text
  | _ => none

/-- Transport-level outcome of the `POST /doUpload` request in
`api.upload_image`: an HTTP response with some status code, an
`aiohttp.ClientResponseError` with a message, or another
`aiohttp.ClientError`. -/
inductive UploadTransport where
  | status (code : Nat)
  | responseError (msg : String)
  | clientError (msg : String)
deriving DecidableEq

/-- Boolean infix test on character lists (Python's `in` on strings). -/
def hasInfix (pat : List Char) : List Char → Bool
  | [] => pat.isEmpty
  | c :: rest => pat.isPrefixOf (c :: rest) || hasInfix pat rest

/-- The check `"Duplicate Content-Length" in str(exc)` from
`api.upload_image`. -/
def containsDuplicateContentLength (msg : String) : Bool :=
  hasInfix "Duplicate Content-Length".data msg.data

/-- Model of `api.upload_image`'s success/failure classification: HTTP 200 is
success; any other status raises `SmallTVApiError`; an
`aiohttp.ClientResponseError` whose text contains `"Duplicate Content-Length"`
is swallowed (treated as success), any other `ClientResponseError` or
`ClientError` raises `SmallTVApiError`. -/
def upload_image (t : UploadTransport) : Except String Unit :=
  match t with
  | UploadTransport.status code =>
    if code = 200 then Except.ok ()
    else Except.error ("Upload failed with HTTP " ++ toString code)
  | UploadTransport.responseError msg =>
    if containsDuplicateContentLength msg then Except.ok ()
    else Except.error ("Upload request error: " ++ msg)
  | UploadTransport.clientError msg =>
    Except.error ("Upload request error: " ++ msg)

/-- Constant `MODE_CAMERAS` from `const.py`. -/
def MODE_CAMERAS : String := "cameras"

/-- Constant `MODE_BUILTIN` from `const.py`. -/
def MODE_BUILTIN : String := "builtin"

/-- Constant `DEFAULT_CYCLE_INTERVAL` from `const.py`. -/
def DEFAULT_CYCLE_INTERVAL : Nat := 1

/-- Everything after the first `'.'` of the character list, or the whole list
when there is no `'.'` — Python's `s.split(".", 1)[-1]`. -/
def afterFirstDot : List Char → Option (List Char)
  | [] => none
  | c :: rest => if c = '.' then some rest else afterFirstDot rest

/-- The label computed in `_async_update_data` for a camera entity id:
`entity_id.split(".", 1)[-1].replace("_", " ")` (single-character
replacement, hence a character map). -/
def cameraLabel (entityId : String) : String :=
  let tail := (afterFirstDot entityId.data).getD entityId.data
  String.mk (tail.map (fun c => if c = '_' then ' ' else c))

/-- Mutable coordinator state from `SmallTVUltraCoordinator.__init__`:
`_firmware_version` and `_needs_album_init`. -/
structure CoordState where
  firmwareVersion : String
  needsAlbumInit : Bool
deriving DecidableEq

/-- State right after `SmallTVUltraCoordinator.__init__`:
`_firmware_version = "unknown"`, `_needs_album_init = True`. -/
def initialCoordState : CoordState :=
  { firmwareVersion := "unknown", needsAlbumInit := true }

/-- Config-entry options read at the top of `_async_update_data`
(defaults already applied, as by `opts.get`). -/
structure CoordOptions where
  mode : String
  cycleInterval : Nat
  cameras : List String
deriving DecidableEq

/-- One device API interaction issued during an update cycle. -/
inductive ApiCall where
  | getInfoCall
  | getAppInfoCall
  | setThemeCall (n : Nat)
  | clearImagesCall
  | uploadImageCall (filename : String)
  | setGifCall (path : String)
deriving DecidableEq

/-- External outcomes visible to one run of `_async_update_data`: device JSON
replies (`none` = `SmallTVApiError`; the inner `Option` is the possibly
missing JSON key read with `.get(key, default)`), per-camera fetch results,
the PIL decoder, the filesystem for fonts, and the success of each device
command. -/
structure CycleEnv where
  getInfoResp : Option (Option String)
  getAppInfoResp : Option (Option Nat)
  fetchImage : String → Option ByteSeq
  decode : ByteSeq → Option Img
  fontAvail : String → Bool
  setThemeOk : Bool
  clearImagesOk : Bool
  uploadResp : UploadTransport
  setGifOk : Bool

/-- Dictionary returned by `_async_update_data` (the coordinator data). -/
inductive UpdateResult where
  | builtin (theme : Nat)
  | cameras (labels : List String)
deriving DecidableEq

/-- Result of one `_async_update_data` run: the coordinator state afterwards,
the ordered device API calls issued, and either the returned data or the
message of the raised `UpdateFailed`. -/
structure CycleOutcome where
  state : CoordState
  calls : List ApiCall
  result : Except String UpdateResult

/-- Frame-collection loop of `_async_update_data`: for each configured camera
entity, `async_get_image` either yields bytes or raises (skipped with a
warning); the kept frames pair the bytes with the computed label, in the
configured order. -/
def collectFrames (env : CycleEnv) (cams : List String) : List (ByteSeq × String) :=
  cams.filterMap (fun e => (env.fetchImage e).map (fun b => (b, cameraLabel e)))

/-- Model of `SmallTVUltraCoordinator._async_update_data`, line by line:
info probe (fatal on failure), builtin-mode branch (sets the reinit flag),
empty-camera and empty-frame no-ops, GIF composition (failure degrades to a
no-op result), best-effort album reinit when `_needs_album_init` is set
(`set_theme(3)` then `clear_images()`, second command skipped if the first
raises, failures only logged), then upload + `set_gif` — the flag is cleared
exactly when both of those succeed — and finally the frame-label list is
returned. -/
def _async_update_data (st : CoordState) (opts : CoordOptions) (env : CycleEnv) :
    CycleOutcome :=
  match env.getInfoResp with
  | none =>
    { state := st, calls := [ApiCall.getInfoCall],
      result := Except.error "Cannot reach SmallTV Ultra" }
  | some vField =>
    let st1 : CoordState := { st with firmwareVersion := vField.getD "unknown" }
    if opts.mode = MODE_BUILTIN then
      match env.getAppInfoResp with
      | none =>
        { state := st1, calls := [ApiCall.getInfoCall, ApiCall.getAppInfoCall],
          result := Except.error "Cannot get app info" }
      | some themeField =>
        { state := { st1 with needsAlbumInit := true },
          calls := [ApiCall.getInfoCall, ApiCall.getAppInfoCall],
          result := Except.ok (UpdateResult.builtin (themeField.getD 1)) }
    else
      if opts.cameras.isEmpty then
        { state := st1, calls := [ApiCall.getInfoCall],
          result := Except.ok (UpdateResult.cameras []) }
      else
        let frames := collectFrames env opts.cameras
        if frames.isEmpty then
          { state := st1, calls := [ApiCall.getInfoCall],
            result := Except.ok (UpdateResult.cameras []) }
        else
          match create_camera_gif env.decode env.fontAvail none frames opts.cycleInterval with
          | Except.error _ =>
            { state := st1, calls := [ApiCall.getInfoCall],
              result := Except.ok (UpdateResult.cameras []) }
          | Except.ok _gif =>
            let reinitCalls : List ApiCall :=
              if st1.needsAlbumInit then
                if env.setThemeOk then [ApiCall.setThemeCall 3, ApiCall.clearImagesCall]
                else [ApiCall.setThemeCall 3]
              else []
            let labels := frames.map (fun p => p.2)
            if (upload_image env.uploadResp).isOk then
              if env.setGifOk then
                { state := { st1 with needsAlbumInit := false },
                  calls := ApiCall.getInfoCall :: reinitCalls ++
                    [ApiCall.uploadImageCall "cameras.gif",
                     ApiCall.setGifCall "/image//cameras.gif"],
                  result := Except.ok (UpdateResult.cameras labels) }
              else
                { state := st1,
                  calls := ApiCall.getInfoCall :: reinitCalls ++
                    [ApiCall.uploadImageCall "cameras.gif",
                     ApiCall.setGifCall "/image//cameras.gif"],
                  result := Except.ok (UpdateResult.cameras labels) }
            else
              { state := st1,
                calls := ApiCall.getInfoCall :: reinitCalls ++
                  [ApiCall.uploadImageCall "cameras.gif"],
                result := Except.ok (UpdateResult.cameras labels) }

/-- The unconditional flag assignment `self._needs_album_init = True` at the
start of `async_force_refresh`, before it hands control to
`self.async_refresh()`. -/
def forceRefreshFlagSet (st : CoordState) : CoordState :=
  { st with needsAlbumInit := true }

/-- Model of `SmallTVUltraCoordinator.async_force_refresh`: set the flag,
then run the (immediately triggered) update cycle. -/
def async_force_refresh (st : CoordState) (opts : CoordOptions) (env : CycleEnv) :
    CycleOutcome :=
  _async_update_data (forceRefreshFlagSet st) opts env

/-- A concrete decoded test image used by concrete-input theorems. -/
def testImg : Img := { width := 320, height := 200, content := ImgContent.source 0 }

/-- A decoder that decodes every byte sequence to `testImg`. -/
def decodeAll : ByteSeq → Option Img := fun _ => some testImg

/-- A decoder that fails on every byte sequence. -/
def decodeNone : ByteSeq → Option Img := fun _ => none

/-- A filesystem on which no font path loads. -/
def noFonts : String → Bool := fun _ => false

/-- Concrete options: camera mode, 2-second cycle, one camera entity. -/
def optsOneCam : CoordOptions :=
  { mode := "cameras", cycleInterval := 2, cameras := ["camera.front_door"] }

/-- Concrete options: camera mode with an empty camera list. -/
def optsNoCams : CoordOptions :=
  { mode := "cameras", cycleInterval := 1, cameras := [] }

/-- Concrete environment: device reachable, fetch and decode succeed,
`set_theme` fails, everything after it succeeds. -/
def envReinitFails : CycleEnv :=
  { getInfoResp := some (some "Ultra-V9.0.45"),
    getAppInfoResp := some (some 3),
    fetchImage := fun _ => some [1, 2, 3],
    decode := decodeAll,
    fontAvail := noFonts,
    setThemeOk := false,
    clearImagesOk := true,
    uploadResp := UploadTransport.status 200,
    setGifOk := true }

/-- Concrete environment: device reachable, fetch and decode succeed, reinit
commands succeed, but the upload returns HTTP 500. -/
def envUploadFails : CycleEnv :=
  { getInfoResp := some (some "Ultra-V9.0.45"),
    getAppInfoResp := some (some 3),
    fetchImage := fun _ => some [1, 2, 3],
    decode := decodeAll,
    fontAvail := noFonts,
    setThemeOk := true,
    clearImagesOk := true,
    uploadResp := UploadTransport.status 500,
    setGifOk := true }

/-- Concrete environment: device reachable and everything succeeds. -/
def envAllOk : CycleEnv :=
  { getInfoResp := some (some "Ultra-V9.0.45"),
    getAppInfoResp := some (some 3),
    fetchImage := fun _ => some [1, 2, 3],
    decode := decodeAll,
    fontAvail := noFonts,
    setThemeOk := true,
    clearImagesOk := true,
    uploadResp := UploadTransport.status 200,
    setGifOk := true }

/-- Concrete environment: device reachable but every camera decode fails, so
GIF composition raises. -/
def envDecodeFails : CycleEnv :=
  { getInfoResp := some (some "Ultra-V9.0.45"),
    getAppInfoResp := some (some 3),
    fetchImage := fun _ => some [1, 2, 3],
    decode := decodeNone,
    fontAvail := noFonts,
    setThemeOk := true,
    clearImagesOk := true,
    uploadResp := UploadTransport.status 200,
    setGifOk := true }

/-- Three concrete camera frames (raw bytes + label), in configured order. -/
def framesThree : List (ByteSeq × String) :=
  [([1], "cam one"), ([2], "cam two"), ([3], "cam three")]

/-- The normalized frames `create_camera_gif` builds from `framesThree` under
`decodeAll` with no loadable font. -/
def psThree : List Img :=
  [processDecodedFrame testImg "cam one" (_load_font noFonts none),
   processDecodedFrame testImg "cam two" (_load_font noFonts none),
   processDecodedFrame testImg "cam three" (_load_font noFonts none)]

/-- The font-loading loop returns the first candidate that loads. -/
theorem loadFontGo_eq_find (fs : String → Bool) (l : List String) :
    loadFontGo fs l =
      (match l.find? fs with
       | some p => Font.truetype p _FONT_SIZE
       | none => Font.bitmapDefault) := by
  induction l with
  | nil => rfl
  | cons p rest ih =>
    by_cases h : fs p
    · simp [loadFontGo, h, List.find?_cons_of_pos]
    · simp [loadFontGo, h, List.find?_cons_of_neg, ih]

/-- C10: for every label string (including the empty string and labels longer
than 22 characters), the frame pipeline renders exactly the label truncated to
its first 22 characters (`label[:22]`); the label-rendering step is total
(`processDecodedFrame` always returns an image, never an error); font loading
tries the prioritized candidate paths in order (first loadable candidate
wins) and falls back to the built-in bitmap font when none can be loaded. -/
theorem label_truncation_font_fallback (fs : String → Bool) (font_path : Option String)
    (img : Img) (label : String) :
    labelTextOf (processDecodedFrame img label (_load_font fs font_path))
        = some (label.take 22)
    ∧ ((∀ p ∈ fontCandidates font_path, fs p = false) →
        _load_font fs font_path = Font.bitmapDefault)
    ∧ _load_font fs font_path =
        (match (fontCandidates font_path).find? fs with
         | some p => Font.truetype p _FONT_SIZE
         | none => Font.bitmapDefault) := by
  refine ⟨rfl, ?_, loadFontGo_eq_find fs _⟩
  intro hall
  have hnone : (fontCandidates font_path).find? fs = none := by
    rw [List.find?_eq_none]
    intro p hp
    simp [hall p hp]
  rw [_load_font, loadFontGo_eq_find, hnone]

set_option maxRecDepth 8192 in
/-- Witness for C10 at a concrete 31-character label, with a filesystem on
which no font loads. -/
theorem label_truncation_font_fallback_witness :
    labelTextOf (processDecodedFrame testImg "a_very_long_label_going_past_22"
          (_load_font noFonts none))
        = some "a_very_long_label_goin"
    ∧ _load_font noFonts none = Font.bitmapDefault := by
  have h := label_truncation_font_fallback noFonts none testImg
    "a_very_long_label_going_past_22"
  refine ⟨?_, h.2.1 (fun p _ => rfl)⟩
  rw [h.1]
  rfl

/-- C4: for every decodable input image of dimensions W×H, `_process_frame`
produces an output of exactly `_DISPLAY_SIZE × _DISPLAY_SIZE` (240×240)
pixels, obtained by first center-cropping to the square of side
`min W H` at offset `((W - side) / 2, (H - side) / 2)` (integer floor
division), then resizing that square to 240×240. -/
theorem process_frame_geometry (decode : ByteSeq → Option Img) (raw : ByteSeq)
    (label : String) (font : Font) (img : Img) (hdec : decode raw = some img) :
    ∃ out, _process_frame decode raw label font = some out
      ∧ out.width = 240 ∧ out.height = 240
      ∧ out = labelOverlay
          (resize (crop img ((img.width - min img.width img.height) / 2)
              ((img.height - min img.width img.height) / 2)
              ((img.width - min img.width img.height) / 2 + min img.width img.height)
              ((img.height - min img.width img.height) / 2 + min img.width img.height))
            _DISPLAY_SIZE _DISPLAY_SIZE)
          (label.take 22) font
      ∧ (crop img ((img.width - min img.width img.height) / 2)
            ((img.height - min img.width img.height) / 2)
            ((img.width - min img.width img.height) / 2 + min img.width img.height)
            ((img.height - min img.width img.height) / 2 + min img.width img.height)).width
          = min img.width img.height
      ∧ (crop img ((img.width - min img.width img.height) / 2)
            ((img.height - min img.width img.height) / 2)
            ((img.width - min img.width img.height) / 2 + min img.width img.height)
            ((img.height - min img.width img.height) / 2 + min img.width img.height)).height
          = min img.width img.height := by
  refine ⟨processDecodedFrame img label font, ?_, rfl, rfl, rfl, ?_, ?_⟩
  · simp [_process_frame, hdec]
  · simp [crop]
  · simp [crop]

/-- Witness for C4 at a concrete 320×200 decoded image. -/
theorem process_frame_geometry_witness :
    ∃ out, _process_frame decodeAll [7] "front door" Font.bitmapDefault = some out
      ∧ out.width = 240 ∧ out.height = 240
      ∧ out = labelOverlay
          (resize (crop testImg ((testImg.width - min testImg.width testImg.height) / 2)
              ((testImg.height - min testImg.width testImg.height) / 2)
              ((testImg.width - min testImg.width testImg.height) / 2
                + min testImg.width testImg.height)
              ((testImg.height - min testImg.width testImg.height) / 2
                + min testImg.width testImg.height))
            _DISPLAY_SIZE _DISPLAY_SIZE)
          ("front door".take 22) Font.bitmapDefault
      ∧ (crop testImg ((testImg.width - min testImg.width testImg.height) / 2)
            ((testImg.height - min testImg.width testImg.height) / 2)
            ((testImg.width - min testImg.width testImg.height) / 2
              + min testImg.width testImg.height)
            ((testImg.height - min testImg.width testImg.height) / 2
              + min testImg.width testImg.height)).width
          = min testImg.width testImg.height
      ∧ (crop testImg ((testImg.width - min testImg.width testImg.height) / 2)
            ((testImg.height - min testImg.width testImg.height) / 2)
            ((testImg.width - min testImg.width testImg.height) / 2
              + min testImg.width testImg.height)
            ((testImg.height - min testImg.width testImg.height) / 2
              + min testImg.width testImg.height)).height
          = min testImg.width testImg.height :=
  process_frame_geometry decodeAll [7] "front door" Font.bitmapDefault testImg rfl

/-- C7: `create_camera_gif` on the empty input list fails with the
`ValueError("No frames to encode")` modeled as `ProcError.emptyInput`, and on
a one-element decodable input it succeeds with a single-frame animation
carrying `duration = d * 1000` milliseconds and infinite loop (`loop = 0`). -/
theorem create_camera_gif_empty_and_single :
    (∀ (decode : ByteSeq → Option Img) (fs : String → Bool)
        (fp : Option String) (d : Nat),
        create_camera_gif decode fs fp [] d = Except.error ProcError.emptyInput)
    ∧ ∀ (decode : ByteSeq → Option Img) (fs : String → Bool) (fp : Option String)
        (raw : ByteSeq) (label : String) (img : Img) (d : Nat),
        decode raw = some img →
        create_camera_gif decode fs fp [(raw, label)] d =
          Except.ok
            { frames := [quantize (processDecodedFrame img label (_load_font fs fp)) 256],
              durationMs := d * 1000, loop := 0 } := by
  constructor
  · intro decode fs fp d
    rfl
  · intro decode fs fp raw label img d hdec
    simp [create_camera_gif, processAllFrames, _process_frame, hdec, Except.map]

/-- Witness for C7: empty input fails, a concrete one-element input yields a
single 3000 ms frame looping forever. -/
theorem create_camera_gif_empty_and_single_witness :
    create_camera_gif decodeAll noFonts none [] 3 = Except.error ProcError.emptyInput
    ∧ create_camera_gif decodeAll noFonts none [([7], "cam")] 3 =
        Except.ok
          { frames := [quantize (processDecodedFrame testImg "cam" (_load_font noFonts none)) 256],
            durationMs := 3000, loop := 0 } := by
  have h := create_camera_gif_empty_and_single
  refine ⟨h.1 decodeAll noFonts none 3, ?_⟩
  have h2 := h.2 decodeAll noFonts none [7] "cam" testImg 3 rfl
  simpa using h2

/-- C2: `upload_image` reports success exactly when the HTTP status is 200 or
the transport raised a `ClientResponseError` whose text contains
`"Duplicate Content-Length"`; every other non-200 status or transport error
is reported as a failure (`SmallTVApiError`). -/
theorem upload_image_success_iff (t : UploadTransport) :
    (upload_image t).isOk = true ↔
      (t = UploadTransport.status 200
        ∨ ∃ msg, t = UploadTransport.responseError msg
            ∧ containsDuplicateContentLength msg = true) := by
  cases t with
  | status code =>
    by_cases h : code = 200
    · subst h
      simp [upload_image, Except.isOk, Except.toBool]
    · simp [upload_image, h, Except.isOk, Except.toBool]
  | responseError msg =>
    by_cases h : containsDuplicateContentLength msg
    · simp [upload_image, h, Except.isOk, Except.toBool]
    · simp [upload_image, h, Except.isOk, Except.toBool]
  | clientError msg =>
    simp [upload_image, Except.isOk, Except.toBool]

/-- The frame-processing loop of `create_camera_gif`, when it succeeds,
produces one output per input, in input order, each the normalized form of
the corresponding decoded input. -/
theorem processAllFrames_ok_forall₂ (decode : ByteSeq → Option Img) (font : Font) :
    ∀ (frames : List (ByteSeq × String)) (ps : List Img),
      processAllFrames decode font frames = Except.ok ps →
      List.Forall₂ (fun p img => ∃ i, decode p.1 = some i
        ∧ img = processDecodedFrame i p.2 font) frames ps := by
  intro frames
  induction frames with
  | nil =>
    intro ps h
    simp [processAllFrames] at h
    subst h
    exact List.Forall₂.nil
  | cons hd rest ih =>
    intro ps h
    obtain ⟨raw, label⟩ := hd
    cases hdec : decode raw with
    | none =>
      simp [processAllFrames, _process_frame, hdec] at h
    | some i =>
      simp only [processAllFrames, _process_frame, hdec, Option.map_some'] at h
      cases hrest : processAllFrames decode font rest with
      | error e =>
        rw [hrest] at h
        simp [Except.map] at h
      | ok tl =>
        rw [hrest] at h
        simp only [Except.map, Except.ok.injEq] at h
        subst h
        exact List.Forall₂.cons ⟨i, hdec, rfl⟩ (ih tl hrest)

/-- C6: for every non-empty input list whose elements all decode,
`create_camera_gif` normalizes the elements in input order (order preserved),
quantizes each normalized frame independently to a 256-color palette, and
encodes an animation with `frame_duration_s * 1000` milliseconds per frame
and infinite loop (`loop = 0`), with exactly one output frame per input. -/
theorem create_camera_gif_metadata_order (decode : ByteSeq → Option Img)
    (fs : String → Bool) (fp : Option String) (frames : List (ByteSeq × String))
    (d : Nat) (ps : List Img)
    (hps : processAllFrames decode (_load_font fs fp) frames = Except.ok ps)
    (hne : frames ≠ []) :
    create_camera_gif decode fs fp frames d =
      Except.ok { frames := ps.map (fun f => quantize f 256),
                  durationMs := d * 1000, loop := 0 }
    ∧ ps.length = frames.length
    ∧ List.Forall₂ (fun p img => ∃ i, decode p.1 = some i
        ∧ img = processDecodedFrame i p.2 (_load_font fs fp)) frames ps := by
  have hf := processAllFrames_ok_forall₂ decode (_load_font fs fp) frames ps hps
  refine ⟨?_, (List.Forall₂.length_eq hf).symm, hf⟩
  have hpsne : ps.isEmpty = false := by
    cases ps with
    | nil =>
      cases frames with
      | nil => exact absurd rfl hne
      | cons a l => cases hf
    | cons a l => rfl
  simp [create_camera_gif, hps, hpsne]

/-- Witness for C6: 3 cameras with a 2-second cycle interval yield an
animation with 2000 ms per frame, infinite loop, and exactly 3 quantized
frames in input order. -/
theorem create_camera_gif_metadata_order_witness :
    create_camera_gif decodeAll noFonts none framesThree 2 =
      Except.ok { frames := psThree.map (fun f => quantize f 256),
                  durationMs := 2000, loop := 0 }
    ∧ psThree.length = framesThree.length
    ∧ List.Forall₂ (fun p img => ∃ i, decodeAll p.1 = some i
        ∧ img = processDecodedFrame i p.2 (_load_font noFonts none))
        framesThree psThree := by
  have h := create_camera_gif_metadata_order decodeAll noFonts none framesThree 2
    psThree rfl (by simp [framesThree])
  simpa using h

/-- C5: the controller state machine over `_needs_album_init`: (a) it is true
immediately after construction; (b) `async_force_refresh` sets it true again
regardless of its prior value before handing control to the triggered update
cycle; (c) after one update cycle in which the reinit step ran and succeeded
and the upload + display step succeeded it is false; (d) a cycle whose upload
or display command fails leaves it true even though the preceding reinit step
succeeded. -/
theorem needs_reinit_state_machine :
    initialCoordState.needsAlbumInit = true
    ∧ (∀ st, (forceRefreshFlagSet st).needsAlbumInit = true)
    ∧ (∀ (st : CoordState) (opts : CoordOptions) (env : CycleEnv) (vf : Option String),
        st.needsAlbumInit = true →
        env.getInfoResp = some vf →
        opts.mode ≠ MODE_BUILTIN →
        opts.cameras.isEmpty = false →
        (collectFrames env opts.cameras).isEmpty = false →
        (create_camera_gif env.decode env.fontAvail none (collectFrames env opts.cameras)
            opts.cycleInterval).isOk = true →
        env.setThemeOk = true → env.clearImagesOk = true →
        (upload_image env.uploadResp).isOk = true → env.setGifOk = true →
        (_async_update_data st opts env).state.needsAlbumInit = false)
    ∧ ∀ (st : CoordState) (opts : CoordOptions) (env : CycleEnv) (vf : Option String),
        st.needsAlbumInit = true →
        env.getInfoResp = some vf →
        opts.mode ≠ MODE_BUILTIN →
        opts.cameras.isEmpty = false →
        (collectFrames env opts.cameras).isEmpty = false →
        (create_camera_gif env.decode env.fontAvail none (collectFrames env opts.cameras)
            opts.cycleInterval).isOk = true →
        env.setThemeOk = true → env.clearImagesOk = true →
        ((upload_image env.uploadResp).isOk = false ∨ env.setGifOk = false) →
        (_async_update_data st opts env).state.needsAlbumInit = true := by
  refine ⟨rfl, fun st => rfl, ?_, ?_⟩
  · intro st opts env vf hst hinfo hmode hcams hframes hgok hth hcl hup hsg
    obtain ⟨g, hg⟩ : ∃ g, create_camera_gif env.decode env.fontAvail none
        (collectFrames env opts.cameras) opts.cycleInterval = Except.ok g := by
      cases hc : create_camera_gif env.decode env.fontAvail none
          (collectFrames env opts.cameras) opts.cycleInterval with
      | error e => rw [hc] at hgok; simp [Except.isOk, Except.toBool] at hgok
      | ok g => exact ⟨g, rfl⟩
    simp [_async_update_data, hinfo, hmode, hcams, hframes, hg, hup, hsg]
  · intro st opts env vf hst hinfo hmode hcams hframes hgok hth hcl hfail
    obtain ⟨g, hg⟩ : ∃ g, create_camera_gif env.decode env.fontAvail none
        (collectFrames env opts.cameras) opts.cycleInterval = Except.ok g := by
      cases hc : create_camera_gif env.decode env.fontAvail none
          (collectFrames env opts.cameras) opts.cycleInterval with
      | error e => rw [hc] at hgok; simp [Except.isOk, Except.toBool] at hgok
      | ok g => exact ⟨g, rfl⟩
    rcases hfail with hupf | hsgf
    · simp [_async_update_data, hinfo, hmode, hcams, hframes, hg, hupf, hst]
    · cases hup : (upload_image env.uploadResp).isOk with
      | false => simp [_async_update_data, hinfo, hmode, hcams, hframes, hg, hup, hst]
      | true => simp [_async_update_data, hinfo, hmode, hcams, hframes, hg, hup, hsgf, hst]

set_option maxRecDepth 8192 in
/-- Witness for C5 at concrete inputs: a fully successful cycle clears the
flag, a cycle with a failed upload keeps it, and the force-refresh assignment
sets it from false. -/
theorem needs_reinit_state_machine_witness :
    initialCoordState.needsAlbumInit = true
    ∧ (forceRefreshFlagSet { firmwareVersion := "x", needsAlbumInit := false }).needsAlbumInit
        = true
    ∧ (_async_update_data initialCoordState optsOneCam envAllOk).state.needsAlbumInit = false
    ∧ (_async_update_data initialCoordState optsOneCam envUploadFails).state.needsAlbumInit
        = true := by
  have h := needs_reinit_state_machine
  refine ⟨h.1, h.2.1 _, ?_, ?_⟩
  · exact h.2.2.1 initialCoordState optsOneCam envAllOk (some "Ultra-V9.0.45")
      rfl rfl (by decide) rfl rfl rfl rfl rfl rfl rfl
  · exact h.2.2.2 initialCoordState optsOneCam envUploadFails (some "Ultra-V9.0.45")
      rfl rfl (by decide) rfl rfl rfl rfl rfl (Or.inl rfl)

set_option maxRecDepth 8192 in
/-- C1 (failing input for the claimed invariant): a cycle in which the reinit
command `set_theme(3)` fails but the subsequent upload and display commands
succeed.  The code clears `_needs_album_init` to false (line 130 of
`coordinator.py` runs because only the upload `try` block guards it), so the
flag does not survive a failed reinit, contrary to the claim; the call trace
also shows `clear_images` was never issued. -/
theorem reinit_failure_flag_cleared_on_upload_success :
    initialCoordState.needsAlbumInit = true
    ∧ envReinitFails.setThemeOk = false
    ∧ (upload_image envReinitFails.uploadResp).isOk = true
    ∧ envReinitFails.setGifOk = true
    ∧ (_async_update_data initialCoordState optsOneCam envReinitFails).state.needsAlbumInit
        = false
    ∧ (_async_update_data initialCoordState optsOneCam envReinitFails).calls
        = [ApiCall.getInfoCall, ApiCall.setThemeCall 3,
           ApiCall.uploadImageCall "cameras.gif", ApiCall.setGifCall "/image//cameras.gif"] := by
  refine ⟨rfl, rfl, rfl, rfl, ?_, ?_⟩ <;> rfl

set_option maxRecDepth 8192 in
/-- C3 (counterexample): with zero cameras configured the cycle still
contacts the device — the unconditional `get_info` probe at the top of
`_async_update_data` is issued, so the call trace is not empty. -/
theorem zero_cameras_contacts_device :
    optsNoCams.cameras = []
    ∧ (_async_update_data initialCoordState optsNoCams envAllOk).calls
        = [ApiCall.getInfoCall]
    ∧ (_async_update_data initialCoordState optsNoCams envAllOk).calls ≠ [] := by
  refine ⟨rfl, rfl, ?_⟩
  intro h
  simp [_async_update_data, envAllOk, optsNoCams, initialCoordState, MODE_BUILTIN] at h

/-- C3 (amended): with zero cameras configured (camera mode, reachable
device), the cycle returns the no-op result, leaves `_needs_album_init`
unchanged, and issues no device command beyond the unconditional `get_info`
probe — in particular no settings, clear, upload or display command. -/
theorem zero_cameras_noop (st : CoordState) (opts : CoordOptions) (env : CycleEnv)
    (vf : Option String)
    (hinfo : env.getInfoResp = some vf)
    (hmode : opts.mode ≠ MODE_BUILTIN)
    (hcams : opts.cameras = []) :
    (_async_update_data st opts env).result = Except.ok (UpdateResult.cameras [])
    ∧ (_async_update_data st opts env).calls = [ApiCall.getInfoCall]
    ∧ (_async_update_data st opts env).state.needsAlbumInit = st.needsAlbumInit := by
  simp [_async_update_data, hinfo, hmode, hcams]

/-- Witness for C3's amended statement at concrete inputs. -/
theorem zero_cameras_noop_witness :
    (_async_update_data initialCoordState optsNoCams envAllOk).result
        = Except.ok (UpdateResult.cameras [])
    ∧ (_async_update_data initialCoordState optsNoCams envAllOk).calls
        = [ApiCall.getInfoCall]
    ∧ (_async_update_data initialCoordState optsNoCams envAllOk).state.needsAlbumInit
        = initialCoordState.needsAlbumInit :=
  zero_cameras_noop initialCoordState optsNoCams envAllOk (some "Ultra-V9.0.45")
    rfl (by decide) rfl

/-- C8: a cycle in which GIF composition raises logs and returns the degraded
no-op result (`mode: cameras, cameras: []`): the failure is never propagated
as `UpdateFailed`, no further device command is issued, and the reinit flag
is unchanged. -/
theorem composition_failure_nonfatal (st : CoordState) (opts : CoordOptions)
    (env : CycleEnv) (vf : Option String) (e : ProcError)
    (hinfo : env.getInfoResp = some vf)
    (hmode : opts.mode ≠ MODE_BUILTIN)
    (hcams : opts.cameras.isEmpty = false)
    (hframes : (collectFrames env opts.cameras).isEmpty = false)
    (hgif : create_camera_gif env.decode env.fontAvail none (collectFrames env opts.cameras)
        opts.cycleInterval = Except.error e) :
    (_async_update_data st opts env).result = Except.ok (UpdateResult.cameras [])
    ∧ (∀ msg, (_async_update_data st opts env).result ≠ Except.error msg)
    ∧ (_async_update_data st opts env).calls = [ApiCall.getInfoCall]
    ∧ (_async_update_data st opts env).state.needsAlbumInit = st.needsAlbumInit := by
  simp [_async_update_data, hinfo, hmode, hcams, hframes, hgif]

set_option maxRecDepth 8192 in
/-- Witness for C8: all camera decodes fail, so composition raises; the cycle
still returns the no-op camera result. -/
theorem composition_failure_nonfatal_witness :
    (_async_update_data initialCoordState optsOneCam envDecodeFails).result
        = Except.ok (UpdateResult.cameras [])
    ∧ (∀ msg, (_async_update_data initialCoordState optsOneCam envDecodeFails).result
        ≠ Except.error msg)
    ∧ (_async_update_data initialCoordState optsOneCam envDecodeFails).calls
        = [ApiCall.getInfoCall]
    ∧ (_async_update_data initialCoordState optsOneCam envDecodeFails).state.needsAlbumInit
        = initialCoordState.needsAlbumInit :=
  composition_failure_nonfatal initialCoordState optsOneCam envDecodeFails
    (some "Ultra-V9.0.45") ProcError.decodeError rfl (by decide) rfl rfl rfl

set_option maxRecDepth 8192 in
/-- C9 (counterexample): a cycle whose upload command fails (HTTP 500) still
returns the full label list (`["front door"]`, not `[]`) — line 135 of
`coordinator.py` runs unconditionally — so the result does not reflect that
no new labels were displayed. -/
theorem labels_returned_despite_upload_failure :
    (upload_image envUploadFails.uploadResp).isOk = false
    ∧ (_async_update_data initialCoordState optsOneCam envUploadFails).result
        = Except.ok (UpdateResult.cameras ["front door"])
    ∧ UpdateResult.cameras ["front door"] ≠ UpdateResult.cameras [] := by
  refine ⟨rfl, ?_, by decide⟩
  rfl

/-- C9 (amended): every cycle that reaches the upload step returns the labels
of the frames composed this cycle, in configured order, whether or not the
upload and display commands succeed; in a fully successful cycle these are
exactly the labels of the animation just uploaded and displayed. -/
theorem sync_result_labels (st : CoordState) (opts : CoordOptions) (env : CycleEnv)
    (vf : Option String) (g : GifArtifact)
    (hinfo : env.getInfoResp = some vf)
    (hmode : opts.mode ≠ MODE_BUILTIN)
    (hcams : opts.cameras.isEmpty = false)
    (hframes : (collectFrames env opts.cameras).isEmpty = false)
    (hgif : create_camera_gif env.decode env.fontAvail none (collectFrames env opts.cameras)
        opts.cycleInterval = Except.ok g) :
    (_async_update_data st opts env).result =
      Except.ok (UpdateResult.cameras
        ((collectFrames env opts.cameras).map (fun p => p.2))) := by
  by_cases hu : (upload_image env.uploadResp).isOk = true
  · by_cases hsg : env.setGifOk = true
    · simp [_async_update_data, hinfo, hmode, hcams, hframes, hgif, hu, hsg]
    · simp [_async_update_data, hinfo, hmode, hcams, hframes, hgif, hu, hsg]
  · simp [_async_update_data, hinfo, hmode, hcams, hframes, hgif, hu]

set_option maxRecDepth 8192 in
/-- Witness for C9's amended statement: a fully successful concrete cycle
returns the composed frame labels. -/
theorem sync_result_labels_witness :
    (_async_update_data initialCoordState optsOneCam envAllOk).result =
      Except.ok (UpdateResult.cameras
        ((collectFrames envAllOk optsOneCam.cameras).map (fun p => p.2))) :=
  sync_result_labels initialCoordState optsOneCam envAllOk (some "Ultra-V9.0.45")
    (create_camera_gif envAllOk.decode envAllOk.fontAvail none
      (collectFrames envAllOk optsOneCam.cameras) optsOneCam.cycleInterval
      |>.toOption.getD { frames := [], durationMs := 0, loop := 0 })
    rfl (by decide) rfl rfl rfl

end SmallTV
